import Mathlib

/-!
Shallow embedding of the quantitative risk engine of the imbank-clms
backend (`src/backend/app/services/credit_models.py` and
`src/backend/app/services/calculations.py`), together with theorems
settling the specification claims about it.

Rational-valued parts of the source (the LGD, EAD and scorecard
arithmetic) are embedded over `ℚ` so they stay executable; the
transcendental parts (sigmoid, exp, the Basel RWA formula with its
normal CDF/quantile approximations) are embedded over `ℝ`.
-/

namespace CLMS

/-- Lookup in an association list with a default, embedding Python's
`dict.get(key, default)` (insertion order preserved). -/
def dictGet (tbl : List (String × ℚ)) (k : String) (dflt : ℚ) : ℚ :=
  match tbl.find? (fun p => p.1 == k) with
  | some p => p.2
  | none => dflt

/-- Python `int(x)` for rationals: truncation toward zero. -/
def pyTruncQ (q : ℚ) : ℤ :=
  if 0 ≤ q then ⌊q⌋ else -⌊-q⌋

/-- Python `round` ties-to-even on an exact rational. -/
def roundHalfEven (q : ℚ) : ℤ :=
  let f : ℤ := ⌊q⌋
  let r : ℚ := q - f
  if r < 1/2 then f
  else if 1/2 < r then f + 1
  else if 2 ∣ f then f else f + 1

/-- Python `round(x, 1)` on an exact rational. -/
def pyRound1 (q : ℚ) : ℚ :=
  (roundHalfEven (10 * q) : ℚ) / 10

/-- Embedding of `INDUSTRY_RISK` table of `CorporateRatingModel`. -/
def INDUSTRY_RISK : List (String × ℚ) :=
  [("IND001", 0.8), ("IND002", 0.85), ("IND003", 1.0), ("IND004", 1.0),
   ("IND005", 1.0), ("IND006", 0.9), ("IND007", 1.1), ("IND008", 1.3),
   ("IND009", 1.5), ("IND010", 1.1)]

-- ===========================================================================
-- MDL_EAD (`EADModel.calculate_ead`)
-- ===========================================================================

/-- Embedding of `EADInput` dataclass. `utilization_history = []` plays the role of the
Python default `None` (both are falsy in the guarding `if`). -/
structure EADInput where
  committed_amount : ℚ
  outstanding_amount : ℚ
  facility_type : String
  months_to_maturity : ℤ := 12
  utilization_history : List ℚ := []
  customer_rating : String := "BBB"
  is_distressed : Bool := false

/-- Embedding of `EADModel.BASE_CCF`. -/
def BASE_CCF : List (String × ℚ) :=
  [("TERM_LOAN", 1.00), ("REVOLVING", 0.75), ("GUARANTEE", 0.50),
   ("TRADE_FINANCE", 0.20), ("CREDIT_CARD", 0.80), ("OVERDRAFT", 0.70)]

/-- Embedding of `EADModel.RATING_CCF_ADJ`. -/
def RATING_CCF_ADJ : List (String × ℚ) :=
  [("AAA", 0.90), ("AA+", 0.92), ("AA", 0.94), ("AA-", 0.96),
   ("A+", 0.98), ("A", 1.00), ("A-", 1.02),
   ("BBB+", 1.04), ("BBB", 1.06), ("BBB-", 1.08),
   ("BB+", 1.10), ("BB", 1.12), ("BB-", 1.14),
   ("B+", 1.16), ("B", 1.18), ("B-", 1.20)]

/-- Numeric fields of the dict returned by `EADModel.calculate_ead`. -/
structure EADResult where
  ead : ℚ
  ccf : ℚ
  outstanding : ℚ
  undrawn : ℚ
  committed : ℚ
  undrawn_ead : ℚ
  base_ccf : ℚ
  rating_adj : ℚ
  maturity_adj : ℚ
  utilization_adj : ℚ
  distress_adj : ℚ
  utilization_rate : ℚ

/-- Embedding of `EADModel.calculate_ead`. -/
def calculate_ead (i : EADInput) : EADResult :=
  let outstanding := i.outstanding_amount
  let undrawn := max 0 (i.committed_amount - outstanding)
  let base_ccf := dictGet BASE_CCF i.facility_type 0.75
  let rating_adj := dictGet RATING_CCF_ADJ i.customer_rating 1.06
  let maturity_adj : ℚ :=
    if i.months_to_maturity ≤ 3 then 0.80
    else if i.months_to_maturity ≤ 6 then 0.90
    else if i.months_to_maturity ≤ 12 then 0.95
    else 1.00
  let utilization_adj : ℚ :=
    if i.utilization_history.isEmpty then 1.0
    else
      let avg_util := i.utilization_history.sum / (i.utilization_history.length : ℚ)
      if avg_util > 0.8 then 1.10
      else if avg_util < 0.3 then 0.90
      else 1.0
  let distress_adj : ℚ := if i.is_distressed then 1.30 else 1.00
  let final_ccf := max 0.10 (min 1.00
    (base_ccf * rating_adj * maturity_adj * utilization_adj * distress_adj))
  let ead := outstanding + final_ccf * undrawn
  let ead' := if i.facility_type = "TERM_LOAN" then i.committed_amount else ead
  let final_ccf' : ℚ := if i.facility_type = "TERM_LOAN" then 1.00 else final_ccf
  { ead := ead'
    ccf := final_ccf'
    outstanding := outstanding
    undrawn := undrawn
    committed := i.committed_amount
    undrawn_ead := final_ccf' * undrawn
    base_ccf := base_ccf
    rating_adj := rating_adj
    maturity_adj := maturity_adj
    utilization_adj := utilization_adj
    distress_adj := distress_adj
    utilization_rate := if i.committed_amount > 0 then outstanding / i.committed_amount else 0 }

-- ===========================================================================
-- MDL_LGD (`LGDModel.calculate_lgd`)
-- ===========================================================================

/-- Embedding of `LGDInput` dataclass (fields the computation reads). -/
structure LGDInput where
  exposure_amount : ℚ
  collateral_type : String
  collateral_value : ℚ := 0
  collateral_ratio : ℚ := 0
  borrower_type : String := "CORPORATE"
  seniority : String := "SENIOR"
  industry_code : String := "IND001"
  economic_cycle : String := "NORMAL"
  facility_type : String := "TERM_LOAN"

/-- Embedding of `LGDModel.COLLATERAL_RECOVERY_RATES`. -/
def COLLATERAL_RECOVERY_RATES : List (String × ℚ) :=
  [("NONE", 0.25), ("REAL_ESTATE", 0.70), ("DEPOSIT", 0.95),
   ("GUARANTEE", 0.60), ("EQUIPMENT", 0.45), ("INVENTORY", 0.35)]

/-- Embedding of `LGDModel.DISPOSAL_COSTS`. -/
def DISPOSAL_COSTS : List (String × ℚ) :=
  [("NONE", 0.05), ("REAL_ESTATE", 0.10), ("DEPOSIT", 0.01),
   ("GUARANTEE", 0.03), ("EQUIPMENT", 0.15), ("INVENTORY", 0.20)]

/-- Embedding of `LGDModel.CYCLE_ADJUSTMENTS`. -/
def CYCLE_ADJUSTMENTS : List (String × ℚ) :=
  [("EXPANSION", 0.85), ("NORMAL", 1.00), ("RECESSION", 1.25)]

/-- Embedding of `LGDModel.SENIORITY_ADJUSTMENTS`. -/
def SENIORITY_ADJUSTMENTS : List (String × ℚ) :=
  [("SENIOR", 1.00), ("SUBORDINATED", 1.30)]

/-- Numeric fields of the dict returned by `LGDModel.calculate_lgd`. -/
structure LGDResult where
  lgd : ℚ
  downturn_lgd : ℚ
  recovery_rate : ℚ
  secured_recovery : ℚ
  unsecured_recovery : ℚ
  disposal_costs : ℚ
  total_recovery : ℚ
  base_lgd : ℚ
  cycle_factor : ℚ
  seniority_factor : ℚ
  industry_factor : ℚ
  secured_portion : ℚ
  collateral_recovery_rate : ℚ

/-- Embedding of `LGDModel.calculate_lgd`. -/
def calculate_lgd (i : LGDInput) : LGDResult :=
  let collateral_recovery_rate := dictGet COLLATERAL_RECOVERY_RATES i.collateral_type 0.25
  let secured_amount := min i.collateral_value i.exposure_amount
  let secured_recovery := secured_amount * collateral_recovery_rate
  let unsecured_amount := max 0 (i.exposure_amount - i.collateral_value)
  let unsecured_recovery := unsecured_amount * 0.25
  let disposal_cost_rate := dictGet DISPOSAL_COSTS i.collateral_type 0.05
  let disposal_costs := secured_amount * disposal_cost_rate
  let total_recovery := secured_recovery + unsecured_recovery - disposal_costs
  let base_recovery_rate :=
    if i.exposure_amount > 0 then total_recovery / i.exposure_amount else 0.25
  let base_recovery_rate' := max 0 (min 1 base_recovery_rate)
  let base_lgd := 1 - base_recovery_rate'
  let cycle_adj := dictGet CYCLE_ADJUSTMENTS i.economic_cycle 1.0
  let seniority_adj := dictGet SENIORITY_ADJUSTMENTS i.seniority 1.0
  let industry_risk := dictGet INDUSTRY_RISK i.industry_code 1.0
  let final_lgd := base_lgd * cycle_adj * seniority_adj * (0.8 + 0.2 * industry_risk)
  let final_lgd' := max 0.05 (min 0.95 final_lgd)
  let downturn_lgd := min 0.95 (final_lgd' * 1.25)
  { lgd := final_lgd'
    downturn_lgd := downturn_lgd
    recovery_rate := 1 - final_lgd'
    secured_recovery := secured_recovery
    unsecured_recovery := unsecured_recovery
    disposal_costs := disposal_costs
    total_recovery := total_recovery
    base_lgd := base_lgd
    cycle_factor := cycle_adj
    seniority_factor := seniority_adj
    industry_factor := industry_risk
    secured_portion := if i.exposure_amount > 0 then secured_amount / i.exposure_amount else 0
    collateral_recovery_rate := collateral_recovery_rate }

-- ===========================================================================
-- MDL_CORP_RATING (`CorporateRatingModel`)
-- ===========================================================================

/-- The `RatingGrade` enumeration, in declaration order, as
(grade string, reference PD) pairs (the notch is its 1-based index). -/
def ratingGrades : List (String × ℚ) :=
  [("AAA", 0.0002), ("AA+", 0.0004), ("AA", 0.0006), ("AA-", 0.0010),
   ("A+", 0.0015), ("A", 0.0025), ("A-", 0.0045),
   ("BBB+", 0.0070), ("BBB", 0.0115), ("BBB-", 0.0185),
   ("BB+", 0.0300), ("BB", 0.0480), ("BB-", 0.0750),
   ("B+", 0.1200), ("B", 0.2000), ("B-", 0.3000),
   ("CCC", 0.5000), ("CC", 0.7500), ("C", 0.9000), ("D", 1.0000)]

/-- Embedding of `sigmoid` from `credit_models.py`. -/
noncomputable def sigmoid (x : ℝ) : ℝ := 1 / (1 + Real.exp (-x))

/-- Embedding of `normalize` from `credit_models.py` (rational version). -/
def normalize (value min_val max_val : ℚ) : ℚ :=
  if max_val ≤ min_val then 0.5
  else max 0 (min 1 ((value - min_val) / (max_val - min_val)))

/-- Embedding of `CorporateRatingInput` dataclass. -/
structure CorporateRatingInput where
  total_assets : ℚ
  total_liabilities : ℚ
  total_equity : ℚ
  sales : ℚ
  operating_income : ℚ
  net_income : ℚ
  ebitda : ℚ
  interest_expense : ℚ
  current_assets : ℚ
  current_liabilities : ℚ
  cash_and_equivalents : ℚ
  years_in_business : ℤ
  industry_code : String
  is_listed : Bool := false
  has_external_audit : Bool := true
  ceo_experience_years : ℤ := 10
  months_with_bank : ℤ := 12
  overdraft_count_12m : ℤ := 0
  max_overdraft_days : ℤ := 0

/-- The dict returned by `CorporateRatingModel.calculate_financial_ratios`. -/
structure FinancialRatios where
  debt_ratio : ℚ
  current_ratio : ℚ
  interest_coverage : ℚ
  roa : ℚ
  roe : ℚ
  operating_margin : ℚ
  ebitda_margin : ℚ
  cash_ratio : ℚ
  sales_growth : ℚ

/-- Embedding of `CorporateRatingModel.calculate_financial_ratios`. -/
def calculate_financial_ratios (i : CorporateRatingInput) : FinancialRatios where
  debt_ratio := if i.total_equity > 0 then i.total_liabilities / i.total_equity else 5.0
  current_ratio :=
    if i.current_liabilities > 0 then i.current_assets / i.current_liabilities else 1.0
  interest_coverage :=
    if i.interest_expense > 0 then i.operating_income / i.interest_expense else 10.0
  roa := if i.total_assets > 0 then i.net_income / i.total_assets else 0
  roe := if i.total_equity > 0 then i.net_income / i.total_equity else 0
  operating_margin := if i.sales > 0 then i.operating_income / i.sales else 0
  ebitda_margin := if i.sales > 0 then i.ebitda / i.sales else 0
  cash_ratio :=
    if i.current_liabilities > 0 then i.cash_and_equivalents / i.current_liabilities else 0.5
  sales_growth := if i.total_assets > 0 then i.sales / i.total_assets else 0.5

/-- Embedding of `CorporateRatingModel.normalize_ratios`. -/
def normalize_ratios (r : FinancialRatios) : FinancialRatios where
  debt_ratio := 1 - normalize r.debt_ratio 0 5
  current_ratio := normalize r.current_ratio 0 3
  interest_coverage := normalize r.interest_coverage 0 20
  roa := normalize r.roa (-0.1) 0.2
  roe := normalize r.roe (-0.2) 0.4
  operating_margin := normalize r.operating_margin (-0.1) 0.3
  ebitda_margin := normalize r.ebitda_margin 0 0.4
  cash_ratio := normalize r.cash_ratio 0 1
  sales_growth := normalize r.sales_growth 0 2

/-- The financial score of `CorporateRatingModel.calculate_score` (step 2):
sum over the nine normalized ratios of `normalized × coefficient`, with the
coefficients of `CorporateRatingModel.COEFFICIENTS`. -/
def financial_score (i : CorporateRatingInput) : ℚ :=
  let n := normalize_ratios (calculate_financial_ratios i)
  n.debt_ratio * (-0.8) + n.current_ratio * 0.5 + n.interest_coverage * 0.7 +
    n.roa * 0.6 + n.roe * 0.4 + n.operating_margin * 0.5 + n.ebitda_margin * 0.4 +
    n.cash_ratio * 0.3 + n.sales_growth * 0.3

/-- The non-financial score of `CorporateRatingModel.calculate_score` (step 3). -/
def nonfinancial_score (i : CorporateRatingInput) : ℚ :=
  normalize (i.years_in_business : ℚ) 0 30 * 0.4 +
    (if i.is_listed then 1 else 0) * 0.5 +
    (if i.has_external_audit then 1 else 0) * 0.3 +
    normalize (i.ceo_experience_years : ℚ) 0 30 * 0.2

/-- The behavioral score of `CorporateRatingModel.calculate_score` (step 4). -/
def behavioral_score (i : CorporateRatingInput) : ℚ :=
  let rel := normalize (i.months_with_bank : ℚ) 0 120 * 0.3
  if i.overdraft_count_12m > 0 ∨ i.max_overdraft_days > 0 then
    rel + min ((i.overdraft_count_12m : ℚ) * 0.1 + (i.max_overdraft_days : ℚ) / 30 * 0.2) 1.0
      * (-1.5)
  else rel

/-- The industry adjustment of `CorporateRatingModel.calculate_score` (step 5). -/
def industry_adj (i : CorporateRatingInput) : ℚ :=
  (1 - dictGet INDUSTRY_RISK i.industry_code 1.0) * 0.5

/-- The raw score of `CorporateRatingModel.calculate_score` (step 6), with
the intercept `0.5`. -/
def raw_score (i : CorporateRatingInput) : ℚ :=
  0.5 + financial_score i + nonfinancial_score i + behavioral_score i + industry_adj i

/-- Embedding of `CorporateRatingModel._pd_to_grade`, recursing over the grade list. -/
noncomputable def pdToGradeAux (pd : ℝ) : List (String × ℚ) → String
  | [] => "D"
  | (g, refPd) :: rest =>
      if pd ≤ (refPd : ℝ) * 1.3 then g else pdToGradeAux pd rest

/-- Embedding of `CorporateRatingModel._pd_to_grade`. -/
noncomputable def pdToGrade (pd : ℝ) : String := pdToGradeAux pd ratingGrades

/-- Fields of the dict returned by `CorporateRatingModel.calculate_score`
that the claims mention. -/
structure CorpRatingResult where
  raw_score : ℚ
  score_1000 : ℤ
  pd : ℝ
  ttc_pd : ℝ
  pit_pd : ℝ
  grade : String

/-- Python `int(x)` on a real: truncation toward zero. -/
noncomputable def pyTrunc (x : ℝ) : ℤ :=
  if 0 ≤ x then ⌊x⌋ else -⌊-x⌋

/-- Embedding of `CorporateRatingModel.calculate_score` (steps 6-10). -/
noncomputable def calculate_score (i : CorporateRatingInput) : CorpRatingResult :=
  let raw := raw_score i
  let pd_logit : ℚ := -2.5 * raw + 1.5
  let pd : ℝ := sigmoid (pd_logit : ℝ)
  let pd' : ℝ := max 0.0002 (min 1.0 pd)
  let industry_risk := dictGet INDUSTRY_RISK i.industry_code 1.0
  { raw_score := raw
    score_1000 := pyTrunc (max 100 (min 1000 ((1 - pd') * 1000)))
    pd := pd'
    ttc_pd := pd'
    pit_pd := pd' * (industry_risk : ℝ)
    grade := pdToGrade pd' }

-- ===========================================================================
-- MDL_RETAIL_RATING (`RetailRatingModel`)
-- ===========================================================================

/-- Embedding of `RetailRatingInput` dataclass. -/
structure RetailRatingInput where
  business_type : String
  annual_sales : ℚ
  years_in_business : ℤ
  industry_code : String
  employee_count : ℤ := 1
  owner_age : ℤ := 45
  owner_credit_score : ℤ := 700
  total_debt : ℚ := 0
  monthly_income : ℚ := 0
  months_with_bank : ℤ := 12
  average_balance : ℚ := 0
  overdraft_count_12m : ℤ := 0
  max_overdraft_days : ℤ := 0
  has_collateral : Bool := false
  collateral_value : ℚ := 0

/-- A scorecard bracket: lower bound, upper bound (`none` = `float('inf')`),
score. -/
structure Bracket where
  low : ℚ
  high : Option ℚ
  score : ℚ

/-- Embedding of `SCORECARD['sales_bracket']`. -/
def sales_bracket : List Bracket :=
  [⟨0, some 50000000, 30⟩, ⟨50000000, some 100000000, 50⟩,
   ⟨100000000, some 300000000, 70⟩, ⟨300000000, some 500000000, 85⟩,
   ⟨500000000, some 1000000000, 95⟩, ⟨1000000000, none, 100⟩]

/-- Embedding of `SCORECARD['years_bracket']`. -/
def years_bracket : List Bracket :=
  [⟨0, some 1, 20⟩, ⟨1, some 3, 40⟩, ⟨3, some 5, 60⟩, ⟨5, some 10, 80⟩,
   ⟨10, none, 100⟩]

/-- Embedding of `SCORECARD['cb_bracket']`. -/
def cb_bracket : List Bracket :=
  [⟨0, some 500, 10⟩, ⟨500, some 600, 30⟩, ⟨600, some 700, 50⟩,
   ⟨700, some 800, 75⟩, ⟨800, some 900, 90⟩, ⟨900, some 1001, 100⟩]

/-- Embedding of `SCORECARD['dti_bracket']`. -/
def dti_bracket : List Bracket :=
  [⟨0, some 30, 100⟩, ⟨30, some 50, 80⟩, ⟨50, some 70, 60⟩,
   ⟨70, some 100, 40⟩, ⟨100, some 150, 20⟩, ⟨150, none, 10⟩]

/-- Embedding of `RetailRatingModel._get_bracket_score`: first bracket with
`low <= value < high` wins; default 50. -/
def get_bracket_score (value : ℚ) : List Bracket → ℚ
  | [] => 50
  | b :: rest =>
      match b.high with
      | some h => if b.low ≤ value ∧ value < h then b.score else get_bracket_score value rest
      | none => if b.low ≤ value then b.score else get_bracket_score value rest

/-- Fields of the dict returned by `RetailRatingModel.calculate_score`
that the claims mention (plus the six sub-scores). -/
structure RetailRatingResult where
  score_100 : ℚ
  score_1000 : ℤ
  pd : ℝ
  grade : String
  sales_score : ℚ
  years_score : ℚ
  cb_score : ℚ
  dti_score : ℚ
  relationship_score : ℚ
  behavioral_score : ℚ
  industry_factor : ℚ

/-- Embedding of `RetailRatingModel._score_to_grade`. -/
def score_to_grade (score : ℚ) : String :=
  if score ≥ 95 then "AAA" else if score ≥ 90 then "AA+"
  else if score ≥ 85 then "AA" else if score ≥ 80 then "AA-"
  else if score ≥ 75 then "A+" else if score ≥ 70 then "A"
  else if score ≥ 65 then "A-" else if score ≥ 60 then "BBB+"
  else if score ≥ 55 then "BBB" else if score ≥ 50 then "BBB-"
  else if score ≥ 45 then "BB+" else if score ≥ 40 then "BB"
  else if score ≥ 35 then "BB-" else if score ≥ 30 then "B+"
  else if score ≥ 25 then "B" else if score ≥ 20 then "B-"
  else if score ≥ 15 then "CCC" else if score ≥ 10 then "CC"
  else if score ≥ 5 then "C" else "D"

/-- The weighted, industry-adjusted, collateral-bonused composite score of
`RetailRatingModel.calculate_score` (steps 1-9). -/
def retail_total_score (i : RetailRatingInput) : ℚ :=
  let sales := get_bracket_score i.annual_sales sales_bracket
  let years := get_bracket_score (i.years_in_business : ℚ) years_bracket
  let cb := get_bracket_score (i.owner_credit_score : ℚ) cb_bracket
  let dti : ℚ :=
    if i.monthly_income > 0 then i.total_debt / 12 / i.monthly_income * 100 else 100
  let dtiScore := get_bracket_score dti dti_bracket
  let rel0 : ℚ := min 100 ((i.months_with_bank : ℚ) / 60 * 100)
  let rel : ℚ := if i.average_balance > 10000000 then min 100 (rel0 + 10) else rel0
  let behav0 : ℚ :=
    100 - (if i.overdraft_count_12m > 0 then min 50 ((i.overdraft_count_12m : ℚ) * 10) else 0)
      - (if i.max_overdraft_days > 0 then min 30 (i.max_overdraft_days : ℚ) else 0)
  let behav : ℚ := max 0 behav0
  let total := sales * 0.20 + years * 0.15 + cb * 0.30 + dtiScore * 0.15 +
    rel * 0.10 + behav * 0.10
  let industry_risk := dictGet INDUSTRY_RISK i.industry_code 1.0
  let total' := total / industry_risk
  if i.has_collateral ∧ i.collateral_value > 0 then min 100 (total' + 5) else total'

/-- Embedding of `RetailRatingModel.calculate_score`. -/
noncomputable def retail_calculate_score (i : RetailRatingInput) : RetailRatingResult :=
  let total := retail_total_score i
  let industry_risk := dictGet INDUSTRY_RISK i.industry_code 1.0
  let pd : ℝ := max 0.0002 (min 0.30 (0.30 * Real.exp ((-0.05 : ℝ) * (total : ℝ))))
  { score_100 := pyRound1 total
    score_1000 := pyTruncQ (total * 10)
    pd := pd
    grade := score_to_grade total
    sales_score := get_bracket_score i.annual_sales sales_bracket
    years_score := get_bracket_score (i.years_in_business : ℚ) years_bracket
    cb_score := get_bracket_score (i.owner_credit_score : ℚ) cb_bracket
    dti_score := get_bracket_score
      (if i.monthly_income > 0 then i.total_debt / 12 / i.monthly_income * 100 else 100)
      dti_bracket
    relationship_score :=
      let rel0 : ℚ := min 100 ((i.months_with_bank : ℚ) / 60 * 100)
      if i.average_balance > 10000000 then min 100 (rel0 + 10) else rel0
    behavioral_score := max 0
      (100 - (if i.overdraft_count_12m > 0 then min 50 ((i.overdraft_count_12m : ℚ) * 10) else 0)
        - (if i.max_overdraft_days > 0 then min 30 (i.max_overdraft_days : ℚ) else 0))
    industry_factor := industry_risk }

-- ===========================================================================
-- Capital engine (`calculations.py`: `calculate_rwa` and its locals)
-- ===========================================================================

/-- The error function `math.erf`:
`erf x = (2/√π) ∫₀ˣ exp (-t²) dt`. -/
noncomputable def erf (x : ℝ) : ℝ :=
  ∫ t in (0 : ℝ)..x, 2 / Real.sqrt Real.pi * Real.exp (-t ^ 2)

/-- The local `norm_cdf` of `calculate_rwa`:
`0.5 * (1 + math.erf(x / math.sqrt(2)))`. -/
noncomputable def norm_cdf (x : ℝ) : ℝ :=
  0.5 * (1 + erf (x / Real.sqrt 2))

/-- The local `norm_inv` of `calculate_rwa` (Acklam-style rational
approximation of the standard normal quantile, with hard returns
`-3.0` for `p <= 0` and `3.0` for `p >= 1`). -/
noncomputable def norm_inv (p : ℝ) : ℝ :=
  if p ≤ 0 then -3.0
  else if 1 ≤ p then 3.0
  else
    let a1 : ℝ := -39.69683028665376
    let a2 : ℝ := 220.9460984245205
    let a3 : ℝ := -275.9285104469687
    let a4 : ℝ := 138.3577518672690
    let a5 : ℝ := -30.66479806614716
    let a6 : ℝ := 2.506628277459239
    let b1 : ℝ := -54.47609879822406
    let b2 : ℝ := 161.5858368580409
    let b3 : ℝ := -155.6989798598866
    let b4 : ℝ := 66.80131188771972
    let b5 : ℝ := -13.28068155288572
    let c1 : ℝ := -0.007784894002430293
    let c2 : ℝ := -0.3223964580411365
    let c3 : ℝ := -2.400758277161838
    let c4 : ℝ := -2.549732539343734
    let c5 : ℝ := 4.374664141464968
    let c6 : ℝ := 2.938163982698783
    let d1 : ℝ := 0.007784695709041462
    let d2 : ℝ := 0.3224671290700398
    let d3 : ℝ := 2.445134137142996
    let d4 : ℝ := 3.754408661907416
    let p_low : ℝ := 0.02425
    if p < p_low then
      let q := Real.sqrt (-2 * Real.log p)
      (((((c1 * q + c2) * q + c3) * q + c4) * q + c5) * q + c6) /
        ((((d1 * q + d2) * q + d3) * q + d4) * q + 1)
    else if p ≤ 1 - p_low then
      let q := p - 0.5
      let r := q * q
      (((((a1 * r + a2) * r + a3) * r + a4) * r + a5) * r + a6) * q /
        (((((b1 * r + b2) * r + b3) * r + b4) * r + b5) * r + 1)
    else
      let q := Real.sqrt (-2 * Real.log (1 - p))
      (-((((((c1 * q + c2) * q + c3) * q + c4) * q + c5) * q + c6) /
        ((((d1 * q + d2) * q + d3) * q + d4) * q + 1)))

/-- The asset correlation `r` computed by `calculate_rwa`. -/
noncomputable def corrR (pd : ℝ) : ℝ :=
  0.12 * (1 - Real.exp (-50 * pd)) / (1 - Real.exp (-50)) +
    0.24 * (1 - (1 - Real.exp (-50 * pd)) / (1 - Real.exp (-50)))

/-- The maturity-adjustment coefficient `b` computed by `calculate_rwa`:
`(0.11852 - 0.05478 * math.log(max(pd, 0.0001))) ** 2`. -/
noncomputable def bCoef (pd : ℝ) : ℝ :=
  (0.11852 - 0.05478 * Real.log (max pd 0.0001)) ^ 2

/-- Embedding of `calculate_rwa` from `calculations.py`. -/
noncomputable def calculate_rwa (pd lgd ead : ℝ) (maturity_years : ℝ := 2.5) : ℝ :=
  let r := corrR pd
  let b := bCoef pd
  let g_pd := norm_inv pd
  let g_999 := norm_inv 0.999
  let k := lgd * norm_cdf (Real.sqrt (1 / (1 - r)) * g_pd +
    Real.sqrt (r / (1 - r)) * g_999) - pd * lgd
  let k' := k * (1 - 1.5 * b)⁻¹ * (1 + (maturity_years - 2.5) * b)
  max (k' * 12.5 * ead) 0

-- ===========================================================================
-- Pricing engine (`calculations.py`: `calculate_pricing`)
-- ===========================================================================

/-- Embedding of `STRATEGY_PRICING_ADJ` from `calculations.py` (basis points). -/
def STRATEGY_PRICING_ADJ : List (String × ℚ) :=
  [("EXPAND", -20), ("SELECTIVE", 0), ("MAINTAIN", 10), ("REDUCE", 30), ("EXIT", 100)]

/-- Numeric fields of the dict returned by `calculate_pricing`. -/
structure PricingResult where
  base_rate : ℚ
  ftp_spread : ℚ
  credit_spread : ℚ
  el_spread : ℚ
  ul_spread : ℚ
  opex_spread : ℚ
  target_margin : ℚ
  strategy_adj : ℚ
  collateral_adj : ℚ
  system_rate : ℚ
  final_rate : ℚ

/-- Embedding of `calculate_pricing` from `calculations.py`. The Python
guard `if strategy_code:` is falsy for `None` and for the empty string,
so the lookup only happens for a non-empty `some`. -/
def calculate_pricing (pd lgd : ℚ) (base_rate : ℚ := 0.035) (ftp_spread : ℚ := 0.005)
    (opex_spread : ℚ := 0.002) (target_margin : ℚ := 0.01)
    (strategy_code : Option String := none) (has_collateral : Bool := false)
    (hurdle_rate : ℚ := 0.12) : PricingResult :=
  let el_spread := pd * lgd
  let ul_spread := el_spread * 0.5 * hurdle_rate
  let credit_spread := el_spread + ul_spread
  let strategy_adj : ℚ :=
    match strategy_code with
    | some s => if s = "" then 0 else dictGet STRATEGY_PRICING_ADJ s 0 / 10000
    | none => 0
  let collateral_adj : ℚ := if has_collateral then -0.003 else 0
  let system_rate := base_rate + ftp_spread + credit_spread + opex_spread + target_margin
  let final_rate := system_rate + strategy_adj + collateral_adj
  { base_rate := base_rate
    ftp_spread := ftp_spread
    credit_spread := credit_spread
    el_spread := el_spread
    ul_spread := ul_spread
    opex_spread := opex_spread
    target_margin := target_margin
    strategy_adj := strategy_adj
    collateral_adj := collateral_adj
    system_rate := system_rate
    final_rate := final_rate }

-- ===========================================================================
-- Definitions used by the claim settlements
-- ===========================================================================

/-- Modelled from the words of claim C4 and spec §4.2 (e): the first
grade, scanning the enumeration from best to worst, whose reference PD
is at least `1.3 ×` the computed PD. This is the spec reading, to be
compared with `pdToGradeAux` (the source's condition is
`pd <= refPd * 1.3` instead). -/
noncomputable def specPdToGradeAux (pd : ℝ) : List (String × ℚ) → String
  | [] => "D"
  | (g, refPd) :: rest =>
      if (refPd : ℝ) ≥ 1.3 * pd then g else specPdToGradeAux pd rest

/-- Modelled from the words of claim C4: spec reading of the PD-to-grade
map over the full enumeration. -/
noncomputable def specPdToGrade (pd : ℝ) : String := specPdToGradeAux pd ratingGrades

/-- A concrete best-case corporate borrower: every normalized ratio and
every non-financial and behavioral input sits at its bracket optimum,
in the lowest-risk industry; its raw score is the maximal 6.0. -/
def corpBest : CorporateRatingInput :=
  { total_assets := 10, total_liabilities := 100, total_equity := 1, sales := 20,
    operating_income := 200, net_income := 10, ebitda := 20, interest_expense := 10,
    current_assets := 30, current_liabilities := 10, cash_and_equivalents := 10,
    years_in_business := 30, industry_code := "IND001", is_listed := true,
    has_external_audit := true, ceo_experience_years := 30, months_with_bank := 120,
    overdraft_count_12m := 0, max_overdraft_days := 0 }

/-- The factor of `calculate_rwa` that multiplies `lgd × ead`: the code's
`k`, after the maturity adjustment, divided by `lgd`, times 12.5. It
depends only on `pd` and the maturity. -/
noncomputable def rwaSlope (pd m : ℝ) : ℝ :=
  (norm_cdf (Real.sqrt (1 / (1 - corrR pd)) * norm_inv pd +
      Real.sqrt (corrR pd / (1 - corrR pd)) * norm_inv 0.999) - pd) *
    (1 - 1.5 * bCoef pd)⁻¹ * (1 + (m - 2.5) * bCoef pd) * 12.5

/-- The fully degenerate corporate borrower: every numeric field zero,
so that every ratio denominator guard takes its fallback branch. -/
def corpZero : CorporateRatingInput :=
  { total_assets := 0, total_liabilities := 0, total_equity := 0, sales := 0,
    operating_income := 0, net_income := 0, ebitda := 0, interest_expense := 0,
    current_assets := 0, current_liabilities := 0, cash_and_equivalents := 0,
    years_in_business := 0, industry_code := "IND001", is_listed := false,
    has_external_audit := true, ceo_experience_years := 0, months_with_bank := 0,
    overdraft_count_12m := 0, max_overdraft_days := 0 }

-- ===========================================================================
-- Helper lemmas
-- ===========================================================================

/-- A key absent from the table makes `dictGet` return its default
(Python `dict.get(key, default)` with a missing key). -/
theorem dictGet_of_not_mem_keys (tbl : List (String × ℚ)) (k : String) (d : ℚ)
    (h : k ∉ tbl.map Prod.fst) : dictGet tbl k d = d := by
  unfold dictGet
  have hnone : tbl.find? (fun p => p.1 == k) = none := by
    rw [List.find?_eq_none]
    intro p hp
    simp only [beq_iff_eq]
    intro hk
    exact h (hk ▸ List.mem_map_of_mem Prod.fst hp)
  rw [hnone]

/-- The raw score of the best-case corporate borrower is exactly 6. -/
theorem raw_score_corpBest : raw_score corpBest = 6 := by
  norm_num [raw_score, financial_score, nonfinancial_score, behavioral_score,
    industry_adj, calculate_financial_ratios, normalize_ratios, normalize, dictGet,
    INDUSTRY_RISK, List.find?, corpBest]

/-- The sigmoid of the best-case logit `-13.5` is below the PD floor. -/
theorem sigmoid_neg_135_lt : sigmoid (-13.5) < 0.0002 := by
  have hexp : (4999 : ℝ) < Real.exp 13.5 := by
    have h27 : (2.7 : ℝ) ^ (9 : ℕ) < Real.exp 1 ^ (9 : ℕ) := by
      refine pow_lt_pow_left₀ ?_ (by norm_num) (by norm_num)
      exact lt_trans (by norm_num) Real.exp_one_gt_d9
    have h9 : Real.exp 1 ^ (9 : ℕ) = Real.exp 9 := by
      rw [← Real.exp_nat_mul]
      norm_num
    have hmono : Real.exp 9 ≤ Real.exp 13.5 := Real.exp_le_exp.mpr (by norm_num)
    nlinarith
  have hpos : (0 : ℝ) < 1 + Real.exp 13.5 := by positivity
  unfold sigmoid
  rw [neg_neg, div_lt_iff₀ hpos]
  nlinarith

/-- The sigmoid is strictly positive. -/
theorem sigmoid_pos (x : ℝ) : 0 < sigmoid x := by
  unfold sigmoid
  have h := Real.exp_pos (-x)
  positivity

/-- The clamped PD of the best-case corporate borrower is exactly the
floor 0.0002. -/
theorem pd_corpBest : (calculate_score corpBest).pd = 0.0002 := by
  simp only [calculate_score, raw_score_corpBest]
  have harg : ((-2.5 * 6 + 1.5 : ℚ) : ℝ) = -13.5 := by norm_num
  rw [harg]
  have hlt := sigmoid_neg_135_lt
  rw [min_eq_right (le_trans hlt.le (by norm_num))]
  exact max_eq_left hlt.le

-- ===========================================================================
-- C1: term-loan override in the EAD model
-- ===========================================================================

/-- C1: for every `EADInput` whose `facility_type` is `TERM_LOAN`,
`calculate_ead` returns `ead = committed_amount` and `ccf = 1.00`,
regardless of every other field. -/
theorem C1_term_loan_override (i : EADInput) (h : i.facility_type = "TERM_LOAN") :
    (calculate_ead i).ead = i.committed_amount ∧ (calculate_ead i).ccf = 1 := by
  simp [calculate_ead, h]
  norm_num

/-- Witness for C1 at a concrete input. -/
theorem C1_term_loan_override_witness :
    (calculate_ead ⟨1000, 400, "TERM_LOAN", 24, [0.5], "BB", true⟩).ead = 1000 ∧
      (calculate_ead ⟨1000, 400, "TERM_LOAN", 24, [0.5], "BB", true⟩).ccf = 1 :=
  C1_term_loan_override ⟨1000, 400, "TERM_LOAN", 24, [0.5], "BB", true⟩ rfl

-- ===========================================================================
-- C3: LGD bounds and formula
-- ===========================================================================

/-- C3: for every `LGDInput`, `calculate_lgd` returns `lgd` and
`downturn_lgd` in `[0.05, 0.95]` with `downturn_lgd ≥ lgd`; the final
`lgd` is base LGD times the cycle, seniority and
`0.8 + 0.2 × industry risk` multipliers clamped to `[0.05, 0.95]`, and
`downturn_lgd = min 0.95 (lgd × 1.25)`. -/
theorem C3_lgd_bounds (i : LGDInput) :
    0.05 ≤ (calculate_lgd i).lgd ∧ (calculate_lgd i).lgd ≤ 0.95 ∧
      0.05 ≤ (calculate_lgd i).downturn_lgd ∧ (calculate_lgd i).downturn_lgd ≤ 0.95 ∧
      (calculate_lgd i).lgd ≤ (calculate_lgd i).downturn_lgd ∧
      (calculate_lgd i).lgd = max 0.05 (min 0.95
        ((calculate_lgd i).base_lgd * (calculate_lgd i).cycle_factor *
          (calculate_lgd i).seniority_factor *
            (0.8 + 0.2 * (calculate_lgd i).industry_factor))) ∧
      (calculate_lgd i).downturn_lgd = min 0.95 ((calculate_lgd i).lgd * 1.25) := by
  have key : ∀ v : ℚ, 0.05 ≤ max 0.05 (min 0.95 v) ∧ max 0.05 (min 0.95 v) ≤ 0.95 ∧
      0.05 ≤ min 0.95 (max 0.05 (min 0.95 v) * 1.25) ∧
      min 0.95 (max 0.05 (min 0.95 v) * 1.25) ≤ 0.95 ∧
      max 0.05 (min 0.95 v) ≤ min 0.95 (max 0.05 (min 0.95 v) * 1.25) := by
    intro v
    have h1 : (0.05 : ℚ) ≤ max 0.05 (min 0.95 v) := le_max_left _ _
    have h2 : max 0.05 (min 0.95 v) ≤ 0.95 := max_le (by norm_num) (min_le_left _ _)
    refine ⟨h1, h2, le_min (by norm_num) (by nlinarith), min_le_left _ _,
      le_min h2 (by nlinarith)⟩
  simp only [calculate_lgd]
  refine ⟨(key _).1, (key _).2.1, (key _).2.2.1, (key _).2.2.2.1, (key _).2.2.2.2, ?_, ?_⟩ <;>
    trivial

/-- Witness for C3 at a concrete collateralized exposure. -/
theorem C3_lgd_bounds_witness :
    0.05 ≤ (calculate_lgd ⟨100, "REAL_ESTATE", 80, 0.8, "CORPORATE", "SENIOR", "IND008",
        "RECESSION", "TERM_LOAN"⟩).lgd ∧
      (calculate_lgd ⟨100, "REAL_ESTATE", 80, 0.8, "CORPORATE", "SENIOR", "IND008",
        "RECESSION", "TERM_LOAN"⟩).lgd ≤ 0.95 ∧
      0.05 ≤ (calculate_lgd ⟨100, "REAL_ESTATE", 80, 0.8, "CORPORATE", "SENIOR", "IND008",
        "RECESSION", "TERM_LOAN"⟩).downturn_lgd ∧
      (calculate_lgd ⟨100, "REAL_ESTATE", 80, 0.8, "CORPORATE", "SENIOR", "IND008",
        "RECESSION", "TERM_LOAN"⟩).downturn_lgd ≤ 0.95 ∧
      (calculate_lgd ⟨100, "REAL_ESTATE", 80, 0.8, "CORPORATE", "SENIOR", "IND008",
        "RECESSION", "TERM_LOAN"⟩).lgd ≤
        (calculate_lgd ⟨100, "REAL_ESTATE", 80, 0.8, "CORPORATE", "SENIOR", "IND008",
          "RECESSION", "TERM_LOAN"⟩).downturn_lgd ∧
      (calculate_lgd ⟨100, "REAL_ESTATE", 80, 0.8, "CORPORATE", "SENIOR", "IND008",
        "RECESSION", "TERM_LOAN"⟩).lgd = max 0.05 (min 0.95
          ((calculate_lgd ⟨100, "REAL_ESTATE", 80, 0.8, "CORPORATE", "SENIOR", "IND008",
            "RECESSION", "TERM_LOAN"⟩).base_lgd *
            (calculate_lgd ⟨100, "REAL_ESTATE", 80, 0.8, "CORPORATE", "SENIOR", "IND008",
              "RECESSION", "TERM_LOAN"⟩).cycle_factor *
            (calculate_lgd ⟨100, "REAL_ESTATE", 80, 0.8, "CORPORATE", "SENIOR", "IND008",
              "RECESSION", "TERM_LOAN"⟩).seniority_factor *
            (0.8 + 0.2 * (calculate_lgd ⟨100, "REAL_ESTATE", 80, 0.8, "CORPORATE", "SENIOR",
              "IND008", "RECESSION", "TERM_LOAN"⟩).industry_factor))) ∧
      (calculate_lgd ⟨100, "REAL_ESTATE", 80, 0.8, "CORPORATE", "SENIOR", "IND008",
        "RECESSION", "TERM_LOAN"⟩).downturn_lgd = min 0.95
          ((calculate_lgd ⟨100, "REAL_ESTATE", 80, 0.8, "CORPORATE", "SENIOR", "IND008",
            "RECESSION", "TERM_LOAN"⟩).lgd * 1.25) :=
  C3_lgd_bounds ⟨100, "REAL_ESTATE", 80, 0.8, "CORPORATE", "SENIOR", "IND008",
    "RECESSION", "TERM_LOAN"⟩

-- ===========================================================================
-- C5: unknown enumeration codes (silent defaulting, not rejection)
-- ===========================================================================

/-- Counterexample to C5, one concrete unknown code per enumeration
field of the claim: a `LGDInput` with the unconfigured collateral type
`"ZZZ"` is processed successfully and yields exactly the result of the
`"NONE"` input (the default recovery rate 0.25 and disposal cost 0.05
are silently substituted); an `EADInput` with the unconfigured facility
type `"XYZ"` is processed with the silently substituted default base
CCF 0.75; an unconfigured industry code `"INDZZZ"` is silently given
the default multiplier 1.0; and pricing with the unconfigured strategy
code `"WILD"` returns exactly the result of passing no strategy code —
nothing is rejected. -/
theorem C5_counterexample :
    calculate_lgd ⟨100, "ZZZ", 50, 0, "CORPORATE", "SENIOR", "IND001", "NORMAL", "TERM_LOAN"⟩ =
      calculate_lgd ⟨100, "NONE", 50, 0, "CORPORATE", "SENIOR", "IND001", "NORMAL", "TERM_LOAN"⟩ ∧
    (calculate_ead ⟨1000, 400, "XYZ", 24, [], "BBB", false⟩).base_ccf = 0.75 ∧
    (calculate_lgd ⟨100, "NONE", 0, 0, "CORPORATE", "SENIOR", "INDZZZ", "NORMAL",
      "TERM_LOAN"⟩).industry_factor = 1 ∧
    calculate_pricing 0.01 0.45 0.035 0.005 0.002 0.01 (some ("WILD")) false 0.12 =
      calculate_pricing 0.01 0.45 0.035 0.005 0.002 0.01 none false 0.12 := by
  refine ⟨rfl, rfl, ?_, ?_⟩
  · simp only [calculate_lgd]
    rw [dictGet_of_not_mem_keys _ _ _
      (by decide : ("INDZZZ" : String) ∉ INDUSTRY_RISK.map Prod.fst)]
    norm_num
  · have hadj : (if ("WILD" : String) = "" then (0 : ℚ)
        else dictGet STRATEGY_PRICING_ADJ ("WILD") 0 / 10000) = 0 := by
      rw [if_neg (by decide), dictGet_of_not_mem_keys _ _ _
        (by decide : ("WILD" : String) ∉ STRATEGY_PRICING_ADJ.map Prod.fst)]
      norm_num
    simp only [calculate_pricing, hadj]

/-- C5 as amended: an enumeration code absent from its configured table
is silently coerced to the documented default, and the call still
returns a normal result — the collateral lookup falls back to the
behaviour of `"NONE"` (recovery 0.25, disposal 0.05); the facility
lookup falls back to base CCF 0.75; the industry lookup falls back to
the multiplier 1.0 (so LGD reports industry factor 1 and the corporate
PIT PD equals the TTC PD); and the strategy lookup falls back to a 0 bp
adjustment, giving exactly the result of passing no strategy code. -/
theorem C5_unknown_code_defaults (li lj : LGDInput) (i : EADInput)
    (ci : CorporateRatingInput)
    (pd lgd base_rate ftp_spread opex_spread target_margin hurdle_rate : ℚ)
    (s : String) (has_collateral : Bool)
    (hc : li.collateral_type ∉ COLLATERAL_RECOVERY_RATES.map Prod.fst)
    (hd : li.collateral_type ∉ DISPOSAL_COSTS.map Prod.fst)
    (hf : i.facility_type ∉ BASE_CCF.map Prod.fst)
    (hi : lj.industry_code ∉ INDUSTRY_RISK.map Prod.fst)
    (hci : ci.industry_code ∉ INDUSTRY_RISK.map Prod.fst)
    (hs : s ∉ STRATEGY_PRICING_ADJ.map Prod.fst) :
    calculate_lgd li = calculate_lgd { li with collateral_type := "NONE" } ∧
      (calculate_ead i).base_ccf = 0.75 ∧
      (calculate_lgd lj).industry_factor = 1 ∧
      (calculate_score ci).pit_pd = (calculate_score ci).ttc_pd ∧
      calculate_pricing pd lgd base_rate ftp_spread opex_spread target_margin (some s)
          has_collateral hurdle_rate =
        calculate_pricing pd lgd base_rate ftp_spread opex_spread target_margin none
          has_collateral hurdle_rate := by
  refine ⟨?_, ?_, ?_, ?_, ?_⟩
  · simp only [calculate_lgd]
    rw [dictGet_of_not_mem_keys _ _ _ hc, dictGet_of_not_mem_keys _ _ _ hd]
    rfl
  · simp only [calculate_ead]
    exact dictGet_of_not_mem_keys _ _ _ hf
  · simp only [calculate_lgd]
    rw [dictGet_of_not_mem_keys _ _ _ hi]
    norm_num
  · simp only [calculate_score]
    rw [dictGet_of_not_mem_keys _ _ _ hci]
    norm_num
  · have hadj : (if s = "" then (0 : ℚ) else dictGet STRATEGY_PRICING_ADJ s 0 / 10000) = 0 := by
      by_cases he : s = ""
      · rw [if_pos he]
      · rw [if_neg he, dictGet_of_not_mem_keys _ _ _ hs]
        norm_num
    simp only [calculate_pricing, hadj]

/-- Witness for C5 as amended at concrete unknown codes for all four
enumeration fields. -/
theorem C5_unknown_code_defaults_witness :
    calculate_lgd ⟨200, "WEIRD", 80, 0, "RETAIL", "SENIOR", "IND003", "NORMAL", "REVOLVING"⟩ =
      calculate_lgd ⟨200, "NONE", 80, 0, "RETAIL", "SENIOR", "IND003", "NORMAL", "REVOLVING"⟩ ∧
      (calculate_ead ⟨500, 100, "ODD", 6, [], "A", false⟩).base_ccf = 0.75 ∧
      (calculate_lgd ⟨300, "DEPOSIT", 150, 0, "RETAIL", "SENIOR", "IND042", "NORMAL",
        "REVOLVING"⟩).industry_factor = 1 ∧
      (calculate_score { corpBest with industry_code := "INDUNKNOWN" }).pit_pd =
        (calculate_score { corpBest with industry_code := "INDUNKNOWN" }).ttc_pd ∧
      calculate_pricing 0.02 0.4 0.03 0.004 0.002 0.01 (some ("MYSTERY")) true 0.12 =
        calculate_pricing 0.02 0.4 0.03 0.004 0.002 0.01 none true 0.12 :=
  C5_unknown_code_defaults
    ⟨200, "WEIRD", 80, 0, "RETAIL", "SENIOR", "IND003", "NORMAL", "REVOLVING"⟩
    ⟨300, "DEPOSIT", 150, 0, "RETAIL", "SENIOR", "IND042", "NORMAL", "REVOLVING"⟩
    ⟨500, 100, "ODD", 6, [], "A", false⟩
    { corpBest with industry_code := "INDUNKNOWN" }
    0.02 0.4 0.03 0.004 0.002 0.01 0.12 ("MYSTERY") true
    (by decide) (by decide) (by decide) (by decide) (by decide) (by decide)

-- ===========================================================================
-- C10: retail composite score can exceed the 100 / 1000 caps
-- ===========================================================================

/-- C10: there is a `RetailRatingInput` with industry risk multiplier
below 1 and no collateral whose six sub-scores are all 100, for which
`RetailRatingModel.calculate_score` returns `score_100 > 100` and
`score_1000 > 1000` (the cap at 100 sits only inside the
collateral-bonus branch); the returned `pd` is nevertheless always in
`[0.0002, 0.30]`. -/
theorem C10_retail_score_exceeds_caps :
    (∃ i : RetailRatingInput,
      dictGet INDUSTRY_RISK i.industry_code 1.0 < 1 ∧ i.has_collateral = false ∧
      (retail_calculate_score i).sales_score = 100 ∧
      (retail_calculate_score i).years_score = 100 ∧
      (retail_calculate_score i).cb_score = 100 ∧
      (retail_calculate_score i).dti_score = 100 ∧
      (retail_calculate_score i).relationship_score = 100 ∧
      (retail_calculate_score i).behavioral_score = 100 ∧
      100 < (retail_calculate_score i).score_100 ∧
      1000 < (retail_calculate_score i).score_1000) ∧
    ∀ i : RetailRatingInput,
      0.0002 ≤ (retail_calculate_score i).pd ∧ (retail_calculate_score i).pd ≤ 0.30 := by
  constructor
  · refine ⟨⟨"INDIVIDUAL", 2000000000, 12, "IND001", 3, 50, 950, 0, 1, 120, 0, 0, 0,
      false, 0⟩, ?_⟩
    have htotal : retail_total_score
        ⟨"INDIVIDUAL", 2000000000, 12, "IND001", 3, 50, 950, 0, 1, 120, 0, 0, 0,
          false, 0⟩ = 125 := by
      simp only [retail_total_score, get_bracket_score, sales_bracket, years_bracket,
        cb_bracket, dti_bracket, dictGet, INDUSTRY_RISK, List.find?]
      norm_num
    refine ⟨?_, rfl, ?_, ?_, ?_, ?_, ?_, ?_, ?_, ?_⟩ <;>
      simp only [retail_calculate_score, htotal] <;>
      norm_num [get_bracket_score, sales_bracket, years_bracket, cb_bracket, dti_bracket,
        dictGet, INDUSTRY_RISK, List.find?, pyRound1, roundHalfEven, pyTruncQ]
  · intro i
    simp only [retail_calculate_score]
    exact ⟨le_max_left _ _, max_le (by norm_num) (min_le_left _ _)⟩

-- ===========================================================================
-- C4: the PD-to-grade scan
-- ===========================================================================

/-- First-match characterization of the source's PD-to-grade scan
`_pd_to_grade`: when some entry matches, the returned grade is the first
entry, in list order, with `pd ≤ refPd × 1.3`. -/
theorem pdToGradeAux_first_match (pd : ℝ) :
    ∀ l : List (String × ℚ), (∃ e ∈ l, pd ≤ (e.2 : ℝ) * 1.3) →
      ∃ n, ∃ hn : n < l.length,
        (l.get ⟨n, hn⟩).1 = pdToGradeAux pd l ∧
        pd ≤ ((l.get ⟨n, hn⟩).2 : ℝ) * 1.3 ∧
        ∀ m, ∀ hm : m < n, ¬ pd ≤ ((l.get ⟨m, lt_trans hm hn⟩).2 : ℝ) * 1.3 := by
  intro l
  induction l with
  | nil =>
    rintro ⟨e, he, -⟩
    exact absurd he (List.not_mem_nil e)
  | cons hd tl ih =>
    intro hex
    by_cases h : pd ≤ (hd.2 : ℝ) * 1.3
    · refine ⟨0, Nat.succ_pos _, ?_, by simpa using h, ?_⟩
      · simp [pdToGradeAux, h]
      · intro m hm
        exact absurd hm (Nat.not_lt_zero m)
    · have hex' : ∃ e ∈ tl, pd ≤ (e.2 : ℝ) * 1.3 := by
        rcases hex with ⟨e, he, hpe⟩
        rcases List.mem_cons.mp he with rfl | htl
        · exact absurd hpe h
        · exact ⟨e, htl, hpe⟩
      rcases ih hex' with ⟨n, hn, hg, hle, hfirst⟩
      refine ⟨n + 1, Nat.succ_lt_succ hn, ?_, by simpa using hle, ?_⟩
      · have : pdToGradeAux pd (hd :: tl) = pdToGradeAux pd tl := by
          cases hd with
          | mk g refPd => simp [pdToGradeAux, h]
        rw [this]
        simpa using hg
      · intro m hm
        cases m with
        | zero => simpa using h
        | succ m' =>
          have hm' : m' < n := Nat.lt_of_succ_lt_succ hm
          simpa using hfirst m' hm'

/-- C4 as amended: for every `CorporateRatingInput`, the returned PD is
in `[0.0002, 1]` and the returned grade is the first grade, scanning
the enumeration from best (AAA) to worst (D), whose reference PD
**times 1.3** is at least the computed clamped PD (the source condition
is `pd ≤ refPd × 1.3`, not `refPd ≥ 1.3 × pd` as the claim put it). -/
theorem C4_grade_first_match (i : CorporateRatingInput) :
    0.0002 ≤ (calculate_score i).pd ∧ (calculate_score i).pd ≤ 1 ∧
    ∃ n, ∃ hn : n < ratingGrades.length,
      (ratingGrades.get ⟨n, hn⟩).1 = (calculate_score i).grade ∧
      (calculate_score i).pd ≤ ((ratingGrades.get ⟨n, hn⟩).2 : ℝ) * 1.3 ∧
      ∀ m, ∀ hm : m < n,
        ¬ (calculate_score i).pd ≤ ((ratingGrades.get ⟨m, lt_trans hm hn⟩).2 : ℝ) * 1.3 := by
  have hpd_low : (0.0002 : ℝ) ≤ (calculate_score i).pd := by
    simp only [calculate_score]
    exact le_max_left _ _
  have hpd_high : (calculate_score i).pd ≤ 1 := by
    simp only [calculate_score]
    exact max_le (by norm_num) (le_trans (min_le_left _ _) (by norm_num))
  refine ⟨hpd_low, hpd_high, ?_⟩
  have hgrade : (calculate_score i).grade = pdToGradeAux ((calculate_score i).pd) ratingGrades :=
    rfl
  rw [hgrade]
  apply pdToGradeAux_first_match
  refine ⟨("D", 1.0000), ?_, ?_⟩
  · norm_num [ratingGrades]
  · push_cast
    linarith

/-- Witness for C4 as amended at the concrete best-case borrower. -/
theorem C4_grade_first_match_witness :
    0.0002 ≤ (calculate_score corpBest).pd ∧ (calculate_score corpBest).pd ≤ 1 ∧
    ∃ n, ∃ hn : n < ratingGrades.length,
      (ratingGrades.get ⟨n, hn⟩).1 = (calculate_score corpBest).grade ∧
      (calculate_score corpBest).pd ≤ ((ratingGrades.get ⟨n, hn⟩).2 : ℝ) * 1.3 ∧
      ∀ m, ∀ hm : m < n,
        ¬ (calculate_score corpBest).pd ≤ ((ratingGrades.get ⟨m, lt_trans hm hn⟩).2 : ℝ) * 1.3 :=
  C4_grade_first_match corpBest

/-- The grade of the best-case borrower under the source scan. -/
theorem grade_corpBest : (calculate_score corpBest).grade = "AAA" := by
  have hgrade : (calculate_score corpBest).grade =
      pdToGrade ((calculate_score corpBest).pd) := rfl
  rw [hgrade, pd_corpBest]
  norm_num [pdToGrade, ratingGrades, pdToGradeAux]

/-- The grade of the best-case borrower under the claim's rule. -/
theorem spec_grade_corpBest : specPdToGrade ((calculate_score corpBest).pd) = "AA+" := by
  rw [pd_corpBest]
  norm_num [specPdToGrade, ratingGrades, specPdToGradeAux]

/-- Counterexample to C4 as stated: at the best-case borrower the code
returns grade `AAA`, while the first grade whose reference PD is
`≥ 1.3 ×` the computed PD `0.0002` is `AA+`. -/
theorem C4_counterexample :
    (calculate_score corpBest).grade = "AAA" ∧
      specPdToGrade ((calculate_score corpBest).pd) = "AA+" ∧
      (calculate_score corpBest).grade ≠ specPdToGrade ((calculate_score corpBest).pd) := by
  refine ⟨grade_corpBest, spec_grade_corpBest, ?_⟩
  rw [grade_corpBest, spec_grade_corpBest]
  decide

-- ===========================================================================
-- C7: the 1000-point corporate score (truncation, not rounding)
-- ===========================================================================

/-- C7 as amended: the 1000-point score is the clamped value
`max 100 (min 1000 ((1 − PD) × 1000))` truncated with Python `int`,
i.e. its floor (the clamped value is ≥ 100 > 0), not its rounding. -/
theorem C7_score_1000_floor (i : CorporateRatingInput) :
    (calculate_score i).score_1000 =
      ⌊max 100 (min 1000 ((1 - (calculate_score i).pd) * 1000))⌋ := by
  have hs : (calculate_score i).score_1000 =
      pyTrunc (max 100 (min 1000 ((1 - (calculate_score i).pd) * 1000))) := rfl
  have hx : (0 : ℝ) ≤ max 100 (min 1000 ((1 - (calculate_score i).pd) * 1000)) :=
    le_trans (by norm_num) (le_max_left _ _)
  rw [hs]
  unfold pyTrunc
  rw [if_pos hx]

/-- Witness for C7 as amended at the concrete best-case borrower. -/
theorem C7_score_1000_floor_witness :
    (calculate_score corpBest).score_1000 =
      ⌊max 100 (min 1000 ((1 - (calculate_score corpBest).pd) * 1000))⌋ :=
  C7_score_1000_floor corpBest

/-- Counterexample to C7 as stated: at the best-case borrower the PD is
0.0002, the clamped value is 999.8, the code returns `int(999.8) = 999`
while `round(999.8) = 1000`. -/
theorem C7_counterexample :
    (calculate_score corpBest).score_1000 = 999 ∧
      round (max 100 (min 1000 ((1 - (calculate_score corpBest).pd) * 1000))) = 1000 ∧
      ((calculate_score corpBest).score_1000 : ℤ) ≠
        round (max 100 (min 1000 ((1 - (calculate_score corpBest).pd) * 1000))) := by
  have hval : max 100 (min 1000 ((1 - (calculate_score corpBest).pd) * 1000)) =
      (999.8 : ℝ) := by
    rw [pd_corpBest]
    rw [show ((1 : ℝ) - 0.0002) * 1000 = 999.8 by norm_num]
    rw [min_eq_right (by norm_num), max_eq_right (by norm_num)]
  have h999 : (calculate_score corpBest).score_1000 = 999 := by
    have hs : (calculate_score corpBest).score_1000 =
        pyTrunc (max 100 (min 1000 ((1 - (calculate_score corpBest).pd) * 1000))) := rfl
    rw [hs, hval]
    unfold pyTrunc
    rw [if_pos (by norm_num)]
    apply Int.floor_eq_iff.mpr
    constructor <;> norm_num
  have h1000 : round (max 100 (min 1000 ((1 - (calculate_score corpBest).pd) * 1000))) =
      (1000 : ℤ) := by
    rw [hval, round_eq]
    apply Int.floor_eq_iff.mpr
    constructor <;> norm_num
  exact ⟨h999, h1000, by rw [h999, h1000]; decide⟩

-- ===========================================================================
-- C8: totality of the corporate score with documented fallbacks
-- ===========================================================================

/-- C8: for every `CorporateRatingInput` with non-negative numeric
fields, the corporate model returns a result with no fault: every ratio
whose denominator is zero takes its documented fallback constant
(debt 5, current 1, coverage 10, ROA 0, ROE 0, margins 0, cash 0.5,
turnover 0.5), and the logistic PD transform lands in `[0.0002, 1]`. -/
theorem C8_totality_fallbacks (i : CorporateRatingInput)
    (_h1 : 0 ≤ i.total_assets) (_h2 : 0 ≤ i.total_liabilities) (_h3 : 0 ≤ i.total_equity)
    (_h4 : 0 ≤ i.sales) (_h5 : 0 ≤ i.operating_income) (_h6 : 0 ≤ i.net_income)
    (_h7 : 0 ≤ i.ebitda) (_h8 : 0 ≤ i.interest_expense) (_h9 : 0 ≤ i.current_assets)
    (_h10 : 0 ≤ i.current_liabilities) (_h11 : 0 ≤ i.cash_and_equivalents) :
    (i.total_equity = 0 → (calculate_financial_ratios i).debt_ratio = 5 ∧
      (calculate_financial_ratios i).roe = 0) ∧
    (i.current_liabilities = 0 → (calculate_financial_ratios i).current_ratio = 1 ∧
      (calculate_financial_ratios i).cash_ratio = 0.5) ∧
    (i.interest_expense = 0 → (calculate_financial_ratios i).interest_coverage = 10) ∧
    (i.total_assets = 0 → (calculate_financial_ratios i).roa = 0 ∧
      (calculate_financial_ratios i).sales_growth = 0.5) ∧
    (i.sales = 0 → (calculate_financial_ratios i).operating_margin = 0 ∧
      (calculate_financial_ratios i).ebitda_margin = 0) ∧
    0.0002 ≤ (calculate_score i).pd ∧ (calculate_score i).pd ≤ 1 := by
  refine ⟨?_, ?_, ?_, ?_, ?_, ?_, ?_⟩
  · intro h
    constructor <;> norm_num [calculate_financial_ratios, h]
  · intro h
    constructor <;> norm_num [calculate_financial_ratios, h]
  · intro h
    norm_num [calculate_financial_ratios, h]
  · intro h
    constructor <;> norm_num [calculate_financial_ratios, h]
  · intro h
    constructor <;> norm_num [calculate_financial_ratios, h]
  · simp only [calculate_score]
    exact le_max_left _ _
  · simp only [calculate_score]
    exact max_le (by norm_num) (le_trans (min_le_left _ _) (by norm_num))

/-- Witness for C8 at the all-zero (fully degenerate) input: every
fallback constant is taken and the PD stays in range. -/
theorem C8_totality_fallbacks_witness :
    (calculate_financial_ratios corpZero).debt_ratio = 5 ∧
      (calculate_financial_ratios corpZero).roe = 0 ∧
      (calculate_financial_ratios corpZero).current_ratio = 1 ∧
      (calculate_financial_ratios corpZero).cash_ratio = 0.5 ∧
      (calculate_financial_ratios corpZero).interest_coverage = 10 ∧
      (calculate_financial_ratios corpZero).roa = 0 ∧
      (calculate_financial_ratios corpZero).sales_growth = 0.5 ∧
      (calculate_financial_ratios corpZero).operating_margin = 0 ∧
      (calculate_financial_ratios corpZero).ebitda_margin = 0 ∧
      0.0002 ≤ (calculate_score corpZero).pd ∧ (calculate_score corpZero).pd ≤ 1 := by
  have h := C8_totality_fallbacks corpZero le_rfl le_rfl le_rfl le_rfl le_rfl le_rfl le_rfl
    le_rfl le_rfl le_rfl le_rfl
  exact ⟨(h.1 rfl).1, (h.1 rfl).2, (h.2.1 rfl).1, (h.2.1 rfl).2, h.2.2.1 rfl,
    (h.2.2.2.1 rfl).1, (h.2.2.2.1 rfl).2, (h.2.2.2.2.1 rfl).1, (h.2.2.2.2.1 rfl).2,
    h.2.2.2.2.2.1, h.2.2.2.2.2.2⟩

-- ===========================================================================
-- Capital engine lemmas
-- ===========================================================================

/-- The RWA is the positive part of `lgd × slope × ead`, with the slope
depending only on `pd` and the maturity. -/
theorem calculate_rwa_shape (pd lgd ead m : ℝ) :
    calculate_rwa pd lgd ead m = max (lgd * rwaSlope pd m * ead) 0 := by
  unfold calculate_rwa rwaSlope
  ring_nf

/-- Multiplying a nonnegative factor monotonically moves the positive part. -/
theorem max_mul_mono {a b d : ℝ} (h0 : 0 ≤ a) (hab : a ≤ b) :
    max (a * d) 0 ≤ max (b * d) 0 := by
  rcases le_or_lt 0 d with hd | hd
  · exact max_le_max (mul_le_mul_of_nonneg_right hab hd) le_rfl
  · have hA : a * d ≤ 0 := mul_nonpos_of_nonneg_of_nonpos h0 hd.le
    have hB : b * d ≤ 0 := mul_nonpos_of_nonneg_of_nonpos (h0.trans hab) hd.le
    rw [max_eq_right hA, max_eq_right hB]

-- ===========================================================================
-- C2: RWA monotone in LGD, linear in EAD
-- ===========================================================================

/-- C2: for fixed `pd`, `ead ≥ 0` and maturity, `calculate_rwa` is
monotone non-decreasing in `lgd`; and for fixed `pd`, `lgd`, maturity
it is (positively) linear in `ead`, so `RWA/EAD` is constant. -/
theorem C2_rwa_monotone_lgd_linear_ead (pd lgd1 lgd2 ead m c : ℝ)
    (h0 : 0 ≤ lgd1) (h12 : lgd1 ≤ lgd2) (_he : 0 ≤ ead) (hc : 0 ≤ c) :
    calculate_rwa pd lgd1 ead m ≤ calculate_rwa pd lgd2 ead m ∧
      calculate_rwa pd lgd1 (c * ead) m = c * calculate_rwa pd lgd1 ead m := by
  constructor
  · rw [calculate_rwa_shape pd lgd1 ead m, calculate_rwa_shape pd lgd2 ead m,
      mul_assoc lgd1, mul_assoc lgd2]
    exact max_mul_mono h0 h12
  · rw [calculate_rwa_shape pd lgd1 (c * ead) m, calculate_rwa_shape pd lgd1 ead m]
    rw [show lgd1 * rwaSlope pd m * (c * ead) = c * (lgd1 * rwaSlope pd m * ead) by ring]
    rw [mul_max_of_nonneg _ _ hc, mul_zero]

/-- Witness for C2 at concrete parameters. -/
theorem C2_rwa_monotone_lgd_linear_ead_witness :
    calculate_rwa 0.01 0.3 100 2.5 ≤ calculate_rwa 0.01 0.5 100 2.5 ∧
      calculate_rwa 0.01 0.3 (2 * 100) 2.5 = 2 * calculate_rwa 0.01 0.3 100 2.5 :=
  C2_rwa_monotone_lgd_linear_ead 0.01 0.3 0.5 100 2.5 2 (by norm_num) (by norm_num)
    (by norm_num) (by norm_num)

-- ===========================================================================
-- Bounds on the Basel coefficients
-- ===========================================================================

/-- Numeric bound: `log 10000 ≤ 9.232`, via `10000 = 2^13 × (625/512)`. -/
theorem log_ten_thousand_le : Real.log 10000 ≤ 9.232 := by
  have h1 : (10000 : ℝ) = 2 ^ (13 : ℕ) * (625 / 512) := by norm_num
  have h2 : Real.log 10000 = 13 * Real.log 2 + Real.log (625 / 512) := by
    rw [h1, Real.log_mul (by norm_num) (by norm_num), Real.log_pow]
    norm_num
  have h3 : Real.log (625 / 512) ≤ 625 / 512 - 1 :=
    Real.log_le_sub_one_of_pos (by norm_num)
  have h4 : Real.log 2 < 0.6931471808 := Real.log_two_lt_d9
  rw [h2]
  nlinarith

/-- The log of the floored PD is within `[-9.232, 0]` for `pd ≤ 1`. -/
theorem log_floored_pd_bounds {pd : ℝ} (h1 : pd ≤ 1) :
    -9.232 ≤ Real.log (max pd 0.0001) ∧ Real.log (max pd 0.0001) ≤ 0 := by
  have hlow : (0.0001 : ℝ) ≤ max pd 0.0001 := le_max_right _ _
  have hhigh : max pd 0.0001 ≤ 1 := max_le h1 (by norm_num)
  constructor
  · have hmono : Real.log 0.0001 ≤ Real.log (max pd 0.0001) :=
      Real.log_le_log (by norm_num) hlow
    have hval : Real.log 0.0001 = -Real.log 10000 := by
      rw [show (0.0001 : ℝ) = (10000 : ℝ)⁻¹ by norm_num, Real.log_inv]
    have := log_ten_thousand_le
    rw [hval] at hmono
    linarith
  · exact Real.log_nonpos (by positivity) hhigh

/-- The maturity-adjustment divisor of `calculate_rwa` stays strictly
positive on the unit PD interval: `1.5 × b < 1`. -/
theorem bCoef_lt_two_thirds {pd : ℝ} (h1 : pd ≤ 1) : 1.5 * bCoef pd < 1 := by
  obtain ⟨hlb, hub⟩ := log_floored_pd_bounds h1
  unfold bCoef
  nlinarith [sq_nonneg (Real.log (max pd 0.0001) + 9.232)]

/-- The asset correlation of `calculate_rwa` lies in `[0.12, 0.24]` on
the unit PD interval, so `1 − R` is strictly positive. -/
theorem corrR_bounds {pd : ℝ} (h0 : 0 ≤ pd) (h1 : pd ≤ 1) :
    0.12 ≤ corrR pd ∧ corrR pd ≤ 0.24 := by
  have hE1 : Real.exp (-50 * pd) ≤ 1 := by
    rw [show (1 : ℝ) = Real.exp 0 by rw [Real.exp_zero]]
    exact Real.exp_le_exp.mpr (by nlinarith)
  have hE2 : Real.exp (-50) ≤ Real.exp (-50 * pd) := Real.exp_le_exp.mpr (by nlinarith)
  have hD : (0 : ℝ) < 1 - Real.exp (-50) := by
    have : Real.exp (-50) < Real.exp 0 := Real.exp_lt_exp.mpr (by norm_num)
    rw [Real.exp_zero] at this
    linarith
  set w : ℝ := (1 - Real.exp (-50 * pd)) / (1 - Real.exp (-50)) with hw
  have hw0 : 0 ≤ w := div_nonneg (by linarith) hD.le
  have hw1 : w ≤ 1 := (div_le_one hD).mpr (by linarith)
  have hre : corrR pd = 0.12 * w + 0.24 * (1 - w) := by
    unfold corrR
    rw [hw, mul_div_assoc]
  rw [hre]
  constructor <;> nlinarith

/-- The quantile approximation hard-returns `-3` for `p ≤ 0`. -/
theorem norm_inv_of_nonpos {p : ℝ} (hp : p ≤ 0) : norm_inv p = -3 := by
  unfold norm_inv
  rw [if_pos hp]
  norm_num

/-- The quantile approximation hard-returns `3` for `p ≥ 1`. -/
theorem norm_inv_of_one_le {p : ℝ} (hp : 1 ≤ p) : norm_inv p = 3 := by
  unfold norm_inv
  rw [if_neg (by linarith), if_pos hp]
  norm_num

-- ===========================================================================
-- C9: totality and nonnegativity of calculate_rwa
-- ===========================================================================

/-- C9: `calculate_rwa` is total and nonnegative for every
`pd ∈ [0, 1]` (endpoints included), `lgd ≥ 0`, `ead ≥ 0` and any
maturity: the quantile returns `-3` for `p ≤ 0` and `3` for `p ≥ 1`,
`ln` is applied to `max pd 0.0001`, and the divisors `1 − R` and
`1 − 1.5 b` are strictly positive, so no domain error or division by
zero occurs. -/
theorem C9_rwa_total_nonneg (pd lgd ead m : ℝ)
    (h0 : 0 ≤ pd) (h1 : pd ≤ 1) (_hl : 0 ≤ lgd) (_he : 0 ≤ ead) :
    0 ≤ calculate_rwa pd lgd ead m ∧
      (∀ p : ℝ, p ≤ 0 → norm_inv p = -3) ∧
      (∀ p : ℝ, 1 ≤ p → norm_inv p = 3) ∧
      bCoef pd = (0.11852 - 0.05478 * Real.log (max pd 0.0001)) ^ 2 ∧
      0 < 1 - corrR pd ∧ 0 < 1 - 1.5 * bCoef pd := by
  refine ⟨?_, fun p hp => norm_inv_of_nonpos hp, fun p hp => norm_inv_of_one_le hp,
    rfl, ?_, ?_⟩
  · rw [calculate_rwa_shape]
    exact le_max_right _ _
  · have := (corrR_bounds h0 h1).2
    linarith
  · have := bCoef_lt_two_thirds h1
    linarith

/-- Witness for C9 at concrete parameters, including the endpoint
`pd = 0` behaviour of the quantile. -/
theorem C9_rwa_total_nonneg_witness :
    0 ≤ calculate_rwa 0 0.45 1000000 2.5 ∧
      norm_inv (-0.25) = -3 ∧ norm_inv 1.5 = 3 ∧
      0 < 1 - corrR 0 ∧ 0 < 1 - 1.5 * bCoef 0 := by
  have h := C9_rwa_total_nonneg 0 0.45 1000000 2.5 le_rfl (by norm_num) (by norm_num)
    (by norm_num)
  exact ⟨h.1, h.2.1 (-0.25) (by norm_num), h.2.2.1 1.5 (by norm_num), h.2.2.2.2.1,
    h.2.2.2.2.2⟩

-- ===========================================================================
-- The error function stays strictly above -1
-- ===========================================================================

open MeasureTheory Set

/-- The Gaussian `exp (-t²)` is integrable on the line. -/
theorem gaussian_integrable : Integrable (fun t : ℝ => Real.exp (-t ^ 2)) := by
  have h := integrable_exp_neg_mul_sq (b := (1 : ℝ)) one_pos
  simpa using h

/-- Half of the Gaussian integral sits on the left half-line. -/
theorem integral_gaussian_Iic_zero :
    ∫ t in Iic (0 : ℝ), Real.exp (-t ^ 2) = Real.sqrt Real.pi / 2 := by
  have hadd := integral_add_compl (measurableSet_Iic : MeasurableSet (Iic (0 : ℝ)))
    gaussian_integrable
  rw [compl_Iic] at hadd
  have hfull : ∫ t : ℝ, Real.exp (-t ^ 2) = Real.sqrt Real.pi := by
    have h := integral_gaussian 1
    simpa using h
  have hIoi : ∫ t in Ioi (0 : ℝ), Real.exp (-t ^ 2) = Real.sqrt Real.pi / 2 := by
    have h := integral_gaussian_Ioi 1
    simpa using h
  rw [hIoi, hfull] at hadd
  linarith

/-- The Gaussian integral over any left half-line is strictly positive. -/
theorem integral_Iic_gaussian_pos (x : ℝ) :
    0 < ∫ t in Iic x, Real.exp (-t ^ 2) := by
  have hsub : ∫ t in Ioc (x - 1) x, Real.exp (-t ^ 2) ≤
      ∫ t in Iic x, Real.exp (-t ^ 2) := by
    apply setIntegral_mono_set gaussian_integrable.integrableOn
    · filter_upwards with t using (Real.exp_pos _).le
    · exact HasSubset.Subset.eventuallyLE Ioc_subset_Iic_self
  have hpos : 0 < ∫ t in Ioc (x - 1) x, Real.exp (-t ^ 2) := by
    rw [← intervalIntegral.integral_of_le (by linarith : x - 1 ≤ x)]
    exact intervalIntegral.intervalIntegral_pos_of_pos
      gaussian_integrable.intervalIntegrable (fun t => Real.exp_pos _) (by linarith)
  linarith

/-- The error function is strictly greater than `-1` everywhere. -/
theorem neg_one_lt_erf (x : ℝ) : -1 < erf x := by
  have hs : 0 < Real.sqrt Real.pi := Real.sqrt_pos.mpr Real.pi_pos
  rcases le_or_lt 0 x with hx | hx
  · have hnn : 0 ≤ erf x := by
      unfold erf
      apply intervalIntegral.integral_nonneg hx
      intro t ht
      positivity
    linarith
  · unfold erf
    rw [intervalIntegral.integral_symm x 0]
    apply neg_lt_neg
    rw [intervalIntegral.integral_const_mul]
    have hlt : ∫ t in x..0, Real.exp (-t ^ 2) < Real.sqrt Real.pi / 2 := by
      rw [intervalIntegral.integral_of_le hx.le]
      have hsplit : (∫ t in Iic x, Real.exp (-t ^ 2)) +
          ∫ t in Ioc x 0, Real.exp (-t ^ 2) =
          ∫ t in Iic (0 : ℝ), Real.exp (-t ^ 2) := by
        rw [← setIntegral_union (Iic_disjoint_Ioc le_rfl) measurableSet_Ioc
          gaussian_integrable.integrableOn gaussian_integrable.integrableOn,
          Iic_union_Ioc_eq_Iic hx.le]
      have h1 := integral_Iic_gaussian_pos x
      have h2 := integral_gaussian_Iic_zero
      linarith
    calc 2 / Real.sqrt Real.pi * ∫ t in x..0, Real.exp (-t ^ 2)
        < 2 / Real.sqrt Real.pi * (Real.sqrt Real.pi / 2) :=
          mul_lt_mul_of_pos_left hlt (by positivity)
      _ = 1 := by field_simp

/-- The code's normal CDF approximation is strictly positive. -/
theorem norm_cdf_pos (x : ℝ) : 0 < norm_cdf x := by
  unfold norm_cdf
  have h := neg_one_lt_erf (x / Real.sqrt 2)
  linarith

-- ===========================================================================
-- C6: pd floor constant and unclamped maturity
-- ===========================================================================

/-- The maturity coefficient at `pd = 0` is strictly positive. -/
theorem bCoef_zero_pos : 0 < bCoef 0 := by
  unfold bCoef
  rw [max_eq_right (by norm_num : (0 : ℝ) ≤ 0.0001)]
  have hlog : Real.log 0.0001 < 0 := Real.log_neg (by norm_num) (by norm_num)
  have hbase : (0 : ℝ) < 0.11852 - 0.05478 * Real.log 0.0001 := by nlinarith
  exact pow_pos hbase 2

/-- At `pd = 0` the RWA slope is strictly increasing in the maturity. -/
theorem rwaSlope_strict_mono {m1 m2 : ℝ} (h : m1 < m2) : rwaSlope 0 m1 < rwaSlope 0 m2 := by
  unfold rwaSlope
  have hN := norm_cdf_pos (Real.sqrt (1 / (1 - corrR 0)) * norm_inv 0 +
    Real.sqrt (corrR 0 / (1 - corrR 0)) * norm_inv 0.999)
  have hb := bCoef_zero_pos
  have hblt : 1.5 * bCoef 0 < 1 := bCoef_lt_two_thirds (by norm_num)
  have hinv : 0 < (1 - 1.5 * bCoef 0)⁻¹ := inv_pos.mpr (by linarith)
  nlinarith [mul_pos (mul_pos (mul_pos hN hinv) hb) (sub_pos.mpr h)]

/-- At `pd = 0` and maturity at least 2.5 years the RWA slope is
strictly positive. -/
theorem rwaSlope_zero_pos {m : ℝ} (hm : 2.5 ≤ m) : 0 < rwaSlope 0 m := by
  unfold rwaSlope
  have hN := norm_cdf_pos (Real.sqrt (1 / (1 - corrR 0)) * norm_inv 0 +
    Real.sqrt (corrR 0 / (1 - corrR 0)) * norm_inv 0.999)
  have hb := bCoef_zero_pos
  have hblt : 1.5 * bCoef 0 < 1 := bCoef_lt_two_thirds (by norm_num)
  have hinv : 0 < (1 - 1.5 * bCoef 0)⁻¹ := inv_pos.mpr (by linarith)
  have hM : 0 < 1 + (m - 2.5) * bCoef 0 := by
    nlinarith [mul_nonneg (show (0 : ℝ) ≤ m - 2.5 by linarith) hb.le]
  nlinarith [mul_pos (mul_pos (mul_pos hN hinv) hM) (show (0 : ℝ) < 12.5 by norm_num)]

/-- The maturity is used as given: at `pd = 0`, `lgd = ead = 1`, the
RWA at ten years strictly exceeds the RWA at five years. -/
theorem rwa_maturity_not_clamped : calculate_rwa 0 1 1 5 < calculate_rwa 0 1 1 10 := by
  rw [calculate_rwa_shape, calculate_rwa_shape]
  have h5 : 0 < rwaSlope 0 5 := rwaSlope_zero_pos (by norm_num)
  have h10 : 0 < rwaSlope 0 10 := rwaSlope_zero_pos (by norm_num)
  have hlt : rwaSlope 0 5 < rwaSlope 0 10 := rwaSlope_strict_mono (by norm_num)
  rw [one_mul, one_mul, mul_one, mul_one, max_eq_left h5.le, max_eq_left h10.le]
  exact hlt

/-- Counterexample to C6 as stated: at `pd = 0`, `lgd = 1`, `ead = 1`,
`maturity = 10`, the RWA differs from the RWA at the clamped maturity
`min (max 10 1) 5 = 5` — the code does not clamp the maturity. -/
theorem C6_counterexample :
    calculate_rwa 0 1 1 10 ≠ calculate_rwa 0 1 1 (min (max (10 : ℝ) 1) 5) := by
  rw [show min (max (10 : ℝ) 1) 5 = 5 by norm_num]
  exact ne_of_gt rwa_maturity_not_clamped

/-- C6 as amended: the `ln` argument of `calculate_rwa` is floored at
0.0001 (not at a constant in `[0.0003, 0.0004]`); the quantile is
applied to the raw `pd` but itself returns `-3` for `p ≤ 0` and `3`
for `p ≥ 1`; and the maturity is not clamped to `[1, 5]` — the RWA at
maturity 10 strictly exceeds the RWA at the clamp. -/
theorem C6_amended :
    (∀ pd : ℝ, bCoef pd = (0.11852 - 0.05478 * Real.log (max pd 0.0001)) ^ 2) ∧
      (∀ p : ℝ, p ≤ 0 → norm_inv p = -3) ∧
      (∀ p : ℝ, 1 ≤ p → norm_inv p = 3) ∧
      calculate_rwa 0 1 1 (min (max (10 : ℝ) 1) 5) < calculate_rwa 0 1 1 10 := by
  refine ⟨fun pd => rfl, fun p hp => norm_inv_of_nonpos hp,
    fun p hp => norm_inv_of_one_le hp, ?_⟩
  rw [show min (max (10 : ℝ) 1) 5 = 5 by norm_num]
  exact rwa_maturity_not_clamped

/-- Witness for C6 as amended at concrete inputs. -/
theorem C6_amended_witness :
    bCoef 0.5 = (0.11852 - 0.05478 * Real.log (max 0.5 0.0001)) ^ 2 ∧
      norm_inv (-1) = -3 ∧ norm_inv 2 = 3 ∧
      calculate_rwa 0 1 1 (min (max (10 : ℝ) 1) 5) < calculate_rwa 0 1 1 10 :=
  ⟨C6_amended.1 0.5, C6_amended.2.1 (-1) (by norm_num), C6_amended.2.2.1 2 (by norm_num),
    C6_amended.2.2.2⟩

end CLMS
